import Mathlib

/-
Shallow embedding of the Akeyless gateway client and Gemini tool-dispatch
loop (src/akeyless_gemini_agent.py).

Modelling conventions:
* JSON / Python values are the inductive type `Val`; HTTP response bodies
  are modelled as already-decoded JSON values.
* `requests.post` is an abstract `Transport`; `Except.error` on a post
  models the call raising a transport exception.  `raise_for_status`
  raises exactly for status codes >= 400.
* A Python exception crossing a function boundary is `Except.error e`
  with `e : PyErr`; a normal return is `Except.ok`.
* `json.loads` is an abstract parser parameter `loads : String → Option Val`
  (`none` models `JSONDecodeError`).
* Python dicts are association lists with first-match lookup.
-/

inductive Val where
  | str : String → Val
  | num : Int → Val
  | bool : Bool → Val
  | null : Val
  | arr : List Val → Val
  | obj : List (String × Val) → Val
deriving Repr

/-- Python exceptions that the embedded code can raise. -/
inductive PyErr where
  | transport (msg : String)
  | httpStatus (status : Nat) (text : String)
  | attributeError (msg : String)
  | typeError (msg : String)
deriving Repr, DecidableEq

/-- `str(e)` for an exception. -/
def PyErr.msg : PyErr → String
  | .transport m => m
  | .httpStatus s _ => "HTTP error " ++ toString s
  | .attributeError m => m
  | .typeError m => m

/-- `e.response.text if hasattr(e, 'response') else str(e)`. -/
def PyErr.detail : PyErr → String
  | .httpStatus _ t => t
  | e => e.msg

structure HttpResponse where
  status : Nat
  text : String
  body : Val
deriving Repr

/-- Abstract HTTP layer: `requests.post(url, json=payload)`. -/
structure Transport where
  post : String → Val → Except String HttpResponse

/-- `requests.post` followed by `response.raise_for_status()`. -/
def doPost (t : Transport) (url : String) (payload : Val) : Except PyErr HttpResponse :=
  match t.post url payload with
  | .error m => .error (.transport m)
  | .ok r => if 400 ≤ r.status then .error (.httpStatus r.status r.text) else .ok r

structure Credentials where
  access_id : String
  access_key : String
  gateway_url : String

def auth_payload (c : Credentials) : Val :=
  .obj [("access-id", .str c.access_id), ("access-key", .str c.access_key)]

/-- `AkeylessClient._get_token`: POST credentials to `/auth`; on success
`response.json().get("token")` (so a missing field yields `None`, not an
error); any exception inside is logged and re-raised. -/
def get_token (t : Transport) (c : Credentials) : Except PyErr Val :=
  match doPost t (c.gateway_url ++ "/auth") (auth_payload c) with
  | .error e => .error e
  | .ok r =>
    match r.body with
    | .obj kvs => .ok ((kvs.lookup "token").getD Val.null)
    | _ => .error (.attributeError "response has no attribute get")

/-- Python `secret_name.lstrip('/')`: drop every leading `/`. -/
def lstrip_slash (s : String) : String :=
  String.mk (s.data.dropWhile (· = '/'))

/-- The classification performed by `get_static_secret` on the decoded
response body (lines 56-81 of the source). -/
def static_classify (loads : String → Option Val) (secret_name clean_name : String)
    (result : Val) : Val :=
  match result with
  | .obj kvs =>
    match kvs.lookup clean_name with
    | some secret_value =>
      match secret_value with
      | .str s =>
        match loads s with
        | some (.obj fields) =>
          .obj [("name", .str secret_name), ("type", .str "structured"),
                ("fields", .obj fields), ("success", .bool true)]
        | _ =>
          .obj [("name", .str secret_name), ("type", .str "simple"),
                ("value", .str s), ("success", .bool true)]
      | v => .obj [("name", .str secret_name), ("value", v), ("success", .bool true)]
    | none => .obj [("name", .str secret_name), ("value", result), ("success", .bool true)]
  | _ => .obj [("name", .str secret_name), ("value", result), ("success", .bool true)]

/-- The classification performed by `get_rotated_secret` on the decoded
response body (lines 101-114 of the source). -/
def rotated_classify (loads : String → Option Val) (secret_name clean_name : String)
    (result : Val) : Val :=
  match result with
  | .obj kvs =>
    match kvs.lookup clean_name with
    | some secret_value =>
      match secret_value with
      | .str s =>
        match loads s with
        | some (.obj fields) =>
          .obj [("name", .str secret_name), ("type", .str "structured"),
                ("fields", .obj fields)]
        | _ => .obj [("name", .str secret_name), ("value", .str s)]
      | v => .obj [("name", .str secret_name), ("value", v)]
    | none => .obj [("name", .str secret_name), ("value", result)]
  | _ => .obj [("name", .str secret_name), ("value", result)]

def static_payload (token : Val) (clean_name : String) : Val :=
  .obj [("token", token), ("names", .arr [.str clean_name]), ("json", .bool false)]

/-- The `try` block of `get_static_secret`, given the already-fetched token. -/
def static_try (t : Transport) (loads : String → Option Val) (c : Credentials)
    (secret_name : String) (token : Val) : Val :=
  let clean_name := lstrip_slash secret_name
  match doPost t (c.gateway_url ++ "/get-secret-value") (static_payload token clean_name) with
  | .error e => .obj [("error", .str e.msg), ("detail", .str e.detail)]
  | .ok r => static_classify loads secret_name clean_name r.body

/-- `AkeylessClient.get_static_secret`.  The token fetch is outside the
`try`, so an authentication failure propagates as an exception. -/
def get_static_secret (t : Transport) (loads : String → Option Val) (c : Credentials)
    (secret_name : String) : Except PyErr Val :=
  (get_token t c).map (static_try t loads c secret_name)

def rotated_payload (token : Val) (clean_name : String) : Val :=
  .obj [("token", token), ("names", .arr [.str clean_name]), ("json", .bool false)]

/-- The `try` block of `get_rotated_secret`. -/
def rotated_try (t : Transport) (loads : String → Option Val) (c : Credentials)
    (secret_name : String) (token : Val) : Val :=
  let clean_name := lstrip_slash secret_name
  match doPost t (c.gateway_url ++ "/get-rotated-secret-value")
      (rotated_payload token clean_name) with
  | .error e => .obj [("error", .str e.msg)]
  | .ok r => rotated_classify loads secret_name clean_name r.body

/-- `AkeylessClient.get_rotated_secret`. -/
def get_rotated_secret (t : Transport) (loads : String → Option Val) (c : Credentials)
    (secret_name : String) : Except PyErr Val :=
  (get_token t c).map (rotated_try t loads c secret_name)

def dynamic_payload (token : Val) (clean_name : String) : Val :=
  .obj [("token", token), ("name", .str clean_name)]

/-- The `try` block of `get_dynamic_secret`. -/
def dynamic_try (t : Transport) (c : Credentials) (secret_name : String) (token : Val) : Val :=
  match doPost t (c.gateway_url ++ "/get-dynamic-secret-value")
      (dynamic_payload token (lstrip_slash secret_name)) with
  | .error e => .obj [("error", .str e.msg)]
  | .ok r => r.body

/-- `AkeylessClient.get_dynamic_secret`. -/
def get_dynamic_secret (t : Transport) (c : Credentials) (secret_name : String) :
    Except PyErr Val :=
  (get_token t c).map (dynamic_try t c secret_name)

/-- Python `path.rstrip(cs)`: drop every trailing character in `cs`. -/
def rstrip_chars (s : String) (cs : List Char) : String :=
  String.mk ((s.data.reverse.dropWhile (cs.contains ·)).reverse)

/-- The path normalization of `list_secrets`:
`path.rstrip('/*').rstrip('/')`, with empty result replaced by `/`. -/
def clean_path (path : String) : String :=
  let cp := rstrip_chars (rstrip_chars path ['/', '*']) ['/']
  if cp = "" then "/" else cp

def list_payload (token : Val) (path : String) (secret_type : Option String) : Val :=
  let base := [("token", token), ("path", .str (clean_path path))]
  .obj (match secret_type with
        | some ty => if ty = "" then base else base ++ [("type", .str ty)]
        | none => base)

/-- The `try` block of `list_secrets`. -/
def list_try (t : Transport) (c : Credentials) (path : String)
    (secret_type : Option String) (token : Val) : Val :=
  match doPost t (c.gateway_url ++ "/list-items") (list_payload token path secret_type) with
  | .error e => .obj [("error", .str e.msg)]
  | .ok r => r.body

/-- `AkeylessClient.list_secrets`. -/
def list_secrets (t : Transport) (c : Credentials) (path : String)
    (secret_type : Option String) : Except PyErr Val :=
  (get_token t c).map (list_try t c path secret_type)

def metadata_payload (token : Val) (clean_name : String) : Val :=
  .obj [("token", token), ("name", .str clean_name)]

/-- The `try` block of `get_secret_metadata`. -/
def metadata_try (t : Transport) (c : Credentials) (secret_name : String) (token : Val) : Val :=
  match doPost t (c.gateway_url ++ "/describe-item")
      (metadata_payload token (lstrip_slash secret_name)) with
  | .error e => .obj [("error", .str e.msg)]
  | .ok r => r.body

/-- `AkeylessClient.get_secret_metadata`. -/
def get_secret_metadata (t : Transport) (c : Credentials) (secret_name : String) :
    Except PyErr Val :=
  (get_token t c).map (metadata_try t c secret_name)

/-- `startsWithList hay needle`: the char list `hay` begins with `needle`. -/
def chars_begin : List Char → List Char → Bool
  | _, [] => true
  | [], _ :: _ => false
  | h :: hs, n :: ns => h = n && chars_begin hs ns

/-- `needle` occurs as a contiguous run inside `hay`. -/
def chars_contain : List Char → List Char → Bool
  | hay, needle =>
    match hay with
    | [] => needle.isEmpty
    | _ :: t => chars_begin hay needle || chars_contain t needle

/-- Python `needle in hay` on strings: substring containment. -/
def str_in (needle hay : String) : Bool :=
  chars_contain hay.data needle.data

/-- Python `s.upper()` (ASCII, which covers the type names involved). -/
def py_upper (s : String) : String :=
  String.mk (s.data.map Char.toUpper)

/-- Python `key in v` (`in` on a dict tests keys, on a list tests elements,
on a string tests substrings; other values raise TypeError). -/
def pyContains (v : Val) (s : String) : Except PyErr Bool :=
  match v with
  | .obj kvs => .ok (kvs.any (fun kv => kv.1 = s))
  | .arr xs => .ok (xs.any (fun x => match x with | .str u => u = s | _ => false))
  | .str u => .ok (str_in s u)
  | _ => .error (.typeError "argument is not iterable")

/-- Python `v.get(key, dflt)`: raises AttributeError on non-dicts. -/
def pyGet (v : Val) (key : String) (dflt : Val) : Except PyErr Val :=
  match v with
  | .obj kvs => .ok ((kvs.lookup key).getD dflt)
  | _ => .error (.attributeError "object has no attribute get")

inductive Bucket where
  | static | rotated | dynamic | other
deriving Repr, DecidableEq

/-- Placement of an (already upper-cased) item type by the if/elif chain of
`count_secrets_by_type`. -/
def bucket_of (item_type : String) : Bucket :=
  if str_in "STATIC" item_type then .static
  else if str_in "ROTATED" item_type then .rotated
  else if str_in "DYNAMIC" item_type then .dynamic
  else .other

/-- Case-insensitive substring match, the criterion of the specification. -/
def ci_match (needle s : String) : Bool :=
  str_in needle (py_upper s)

structure Counts where
  static : Nat
  rotated : Nat
  dynamic : Nat
  other : Nat
  static_names : List Val
  rotated_names : List Val
  dynamic_names : List Val
  other_names : List Val
deriving Repr

def Counts.empty : Counts := ⟨0, 0, 0, 0, [], [], [], []⟩

def Counts.add (cs : Counts) (b : Bucket) (nm : Val) : Counts :=
  match b with
  | .static => { cs with static := cs.static + 1, static_names := nm :: cs.static_names }
  | .rotated => { cs with rotated := cs.rotated + 1, rotated_names := nm :: cs.rotated_names }
  | .dynamic => { cs with dynamic := cs.dynamic + 1, dynamic_names := nm :: cs.dynamic_names }
  | .other => { cs with other := cs.other + 1, other_names := nm :: cs.other_names }

/-- `item.get("item_type", "").upper()` and `item.get("item_name", "unknown")`:
a non-dict item or a non-string type raises AttributeError. -/
def item_entry (item : Val) : Except PyErr (String × Val) :=
  match item with
  | .obj kvs =>
    match (kvs.lookup "item_type").getD (.str "") with
    | .str ty => .ok (py_upper ty, (kvs.lookup "item_name").getD (.str "unknown"))
    | _ => .error (.attributeError "object has no attribute upper")
  | _ => .error (.attributeError "object has no attribute get")

/-- The `for item in items` loop of `count_secrets_by_type`. -/
def count_items : List Val → Except PyErr Counts
  | [] => .ok Counts.empty
  | item :: rest => do
    let e ← item_entry item
    let cs ← count_items rest
    .ok (cs.add (bucket_of e.1) e.2)

/-- The final `{"counts": ..., "items_by_type": ...}` value. -/
def counts_val (n : Nat) (cs : Counts) : Val :=
  .obj [("counts", .obj [("total", .num (Int.ofNat n)),
                         ("static", .num (Int.ofNat cs.static)),
                         ("rotated", .num (Int.ofNat cs.rotated)),
                         ("dynamic", .num (Int.ofNat cs.dynamic)),
                         ("other", .num (Int.ofNat cs.other))]),
        ("items_by_type", .obj [("static", .arr cs.static_names),
                                ("rotated", .arr cs.rotated_names),
                                ("dynamic", .arr cs.dynamic_names),
                                ("other", .arr cs.other_names)])]

/-- The body of `count_secrets_by_type` applied to the value returned by
`list_secrets`.  A value of the `items` key that is not a sequence is
modelled as raising when iterated. -/
def count_body (all_items : Val) : Except PyErr Val := do
  let hasErr ← pyContains all_items "error"
  if hasErr then
    return all_items
  else
    let items_val ← pyGet all_items "items" (.arr [])
    match items_val with
    | .arr items => (count_items items).map (counts_val items.length)
    | _ => .error (.typeError "object is not iterable")

/-- `AkeylessClient.count_secrets_by_type`: list, short-circuit on an
error-tagged result, otherwise bucket the items. -/
def count_secrets_by_type (t : Transport) (c : Credentials) (path : String) :
    Except PyErr Val :=
  (list_secrets t c path none).bind count_body

/-- A structured tool call produced by the model. -/
structure FunctionCall where
  name : String
  args : List (String × Val)

/-- One part of a model turn's content; only a possible function call is
relevant to the dispatch loop. -/
structure MsgPart where
  function_call : Option FunctionCall

/-- One model response (`response.candidates[0].content`): its parts and
the `response.text` accessor. -/
structure Turn where
  parts : List MsgPart
  text : String

/-- A record of one invocation of a Vault Gateway operation. -/
inductive GatewayCall where
  | static (name : String)
  | rotated (name : String)
  | dynamic (name : String)
  | list (path : String) (secret_type : Option String)
  | metadata (name : String)
  | count (path : String)
deriving Repr, DecidableEq

structure Env where
  t : Transport
  loads : String → Option Val
  c : Credentials

/-- Python keyword binding `f(**args)` for a single mandatory string
parameter; any other shape raises (TypeError for bad keywords, and the
AttributeError a non-string name would raise inside the operation is
conflated with it). -/
def arg_str (args : List (String × Val)) (key : String) : Except PyErr String :=
  match args with
  | [(k, Val.str s)] => if k = key then .ok s else .error (.typeError "unexpected keyword argument")
  | _ => .error (.typeError "bad arguments")

/-- Keyword binding for `list_secrets(path="/", secret_type=None)`. -/
def path_type_args (args : List (String × Val)) : Except PyErr (String × Option String) :=
  match args with
  | [] => .ok ("/", none)
  | [("path", Val.str p)] => .ok (p, none)
  | [("path", Val.str p), ("secret_type", Val.str ty)] => .ok (p, some ty)
  | [("secret_type", Val.str ty)] => .ok ("/", some ty)
  | [("secret_type", Val.str ty), ("path", Val.str p)] => .ok (p, some ty)
  | _ => .error (.typeError "bad arguments")

/-- Keyword binding for `count_secrets_by_type(path="/")`. -/
def path_args (args : List (String × Val)) : Except PyErr String :=
  match args with
  | [] => .ok "/"
  | [("path", Val.str p)] => .ok p
  | _ => .error (.typeError "bad arguments")

def unknown_function_val (name : String) : Val :=
  .obj [("error", .str ("Unknown function: " ++ name))]

/-- The if/elif dispatch in `chat()` (lines 279-292): the result sent back
to the model, together with the Vault Gateway operations invoked. -/
def dispatch_one (env : Env) (fc : FunctionCall) : Except PyErr Val × List GatewayCall :=
  if fc.name = "get_static_secret" then
    match arg_str fc.args "secret_name" with
    | .error e => (.error e, [])
    | .ok n => (get_static_secret env.t env.loads env.c n, [.static n])
  else if fc.name = "get_rotated_secret" then
    match arg_str fc.args "secret_name" with
    | .error e => (.error e, [])
    | .ok n => (get_rotated_secret env.t env.loads env.c n, [.rotated n])
  else if fc.name = "get_dynamic_secret" then
    match arg_str fc.args "secret_name" with
    | .error e => (.error e, [])
    | .ok n => (get_dynamic_secret env.t env.c n, [.dynamic n])
  else if fc.name = "list_secrets" then
    match path_type_args fc.args with
    | .error e => (.error e, [])
    | .ok pt => (list_secrets env.t env.c pt.1 pt.2, [.list pt.1 pt.2])
  else if fc.name = "get_secret_metadata" then
    match arg_str fc.args "secret_name" with
    | .error e => (.error e, [])
    | .ok n => (get_secret_metadata env.t env.c n, [.metadata n])
  else if fc.name = "count_secrets_by_type" then
    match path_args fc.args with
    | .error e => (.error e, [])
    | .ok p => (count_secrets_by_type env.t env.c p, [.count p])
  else
    (.ok (unknown_function_val fc.name), [])

/-- A `FunctionResponse` turn sent back to the model. -/
structure FnResponse where
  name : String
  result : Val

inductive ChatOutcome where
  | text (s : String)
  | exhausted
  | raised (e : PyErr)

structure LoopResult where
  outcome : ChatOutcome
  calls : List GatewayCall
  sent : List FnResponse

/-- The `while` loop of `chat()` (lines 268-309).  `current` is the model's
latest response; `rest` are the responses the model will produce for the
successive function-response turns (`.exhausted` marks the modelling
artifact of that list running out while the loop still wants a turn). -/
def chat_loop (env : Env) (current : Turn) (rest : List Turn) : LoopResult :=
  match current.parts with
  | [] => ⟨.text current.text, [], []⟩
  | part :: _ =>
    match part.function_call with
    | none => ⟨.text current.text, [], []⟩
    | some fc =>
      match dispatch_one env fc with
      | (.error e, cs) => ⟨.raised e, cs, []⟩
      | (.ok result, cs) =>
        match rest with
        | [] => ⟨.exhausted, cs, [⟨fc.name, result⟩]⟩
        | next :: rest' =>
          let r := chat_loop env next rest'
          ⟨r.outcome, cs ++ r.calls, ⟨fc.name, result⟩ :: r.sent⟩

/- Concrete fixtures used by counterexamples and witnesses. -/

def cEx : Credentials := ⟨"id", "key", "gw"⟩

def loadsEx : String → Option Val := fun _ => none

/-- A transport on which every POST raises. -/
def t_fail : Transport := ⟨fun _ _ => .error "connection refused"⟩

/-- A transport that answers every POST with status 200 and echoes the
request payload as the response body. -/
def t_echo : Transport := ⟨fun _ payload => .ok ⟨200, "", payload⟩⟩

/-- A transport on which authentication succeeds and every other POST
raises. -/
def t_auth_only : Transport :=
  ⟨fun url _ => if url = "gw/auth" then .ok ⟨200, "", .obj [("token", .str "tk")]⟩
                else .error "boom"⟩

/-- A transport whose `/auth` answer is status 200 with an empty JSON
object (no token field). -/
def t_empty_auth : Transport := ⟨fun _ _ => .ok ⟨200, "", .obj []⟩⟩

/-- C1 counterexample: on a transport where every POST raises, the
authentication call performed first by get_static_secret fails and the
exception propagates past the operation's boundary (`Except.error`),
instead of the claimed tagged return value `{error: message}`. -/
theorem c1_counterexample :
    get_static_secret t_fail loadsEx cEx "x" = .error (.transport "connection refused") := rfl

/-- C1, amended: once the initial authentication call has succeeded, every
Gateway operation returns normally (no exception escapes its try block),
and a transport or HTTP-status failure of the operation's own request is
returned as a value tagged with an `error` field; only a failure of the
authentication call propagates as an exception. -/
theorem gateway_error_containment (t : Transport) (loads : String → Option Val)
    (c : Credentials) (name path : String) (sty : Option String) (tok : Val)
    (hauth : get_token t c = .ok tok) :
    get_static_secret t loads c name = .ok (static_try t loads c name tok)
  ∧ get_rotated_secret t loads c name = .ok (rotated_try t loads c name tok)
  ∧ get_dynamic_secret t c name = .ok (dynamic_try t c name tok)
  ∧ list_secrets t c path sty = .ok (list_try t c path sty tok)
  ∧ get_secret_metadata t c name = .ok (metadata_try t c name tok)
  ∧ (∀ e, doPost t (c.gateway_url ++ "/get-secret-value")
        (static_payload tok (lstrip_slash name)) = .error e →
      get_static_secret t loads c name =
        .ok (.obj [("error", .str e.msg), ("detail", .str e.detail)]))
  ∧ (∀ e, doPost t (c.gateway_url ++ "/get-rotated-secret-value")
        (rotated_payload tok (lstrip_slash name)) = .error e →
      get_rotated_secret t loads c name = .ok (.obj [("error", .str e.msg)]))
  ∧ (∀ e, doPost t (c.gateway_url ++ "/get-dynamic-secret-value")
        (dynamic_payload tok (lstrip_slash name)) = .error e →
      get_dynamic_secret t c name = .ok (.obj [("error", .str e.msg)]))
  ∧ (∀ e, doPost t (c.gateway_url ++ "/list-items") (list_payload tok path sty) = .error e →
      list_secrets t c path sty = .ok (.obj [("error", .str e.msg)]))
  ∧ (∀ e, doPost t (c.gateway_url ++ "/describe-item")
        (metadata_payload tok (lstrip_slash name)) = .error e →
      get_secret_metadata t c name = .ok (.obj [("error", .str e.msg)]))
  ∧ (∀ e, doPost t (c.gateway_url ++ "/list-items") (list_payload tok path none) = .error e →
      count_secrets_by_type t c path = .ok (.obj [("error", .str e.msg)])) := by
  refine ⟨?_, ?_, ?_, ?_, ?_, ?_, ?_, ?_, ?_, ?_, ?_⟩
  · rw [get_static_secret, hauth]; rfl
  · rw [get_rotated_secret, hauth]; rfl
  · rw [get_dynamic_secret, hauth]; rfl
  · rw [list_secrets, hauth]; rfl
  · rw [get_secret_metadata, hauth]; rfl
  · intro e he
    rw [get_static_secret, hauth]
    show Except.ok (static_try t loads c name tok) = _
    rw [static_try, he]
  · intro e he
    rw [get_rotated_secret, hauth]
    show Except.ok (rotated_try t loads c name tok) = _
    rw [rotated_try, he]
  · intro e he
    rw [get_dynamic_secret, hauth]
    show Except.ok (dynamic_try t c name tok) = _
    rw [dynamic_try, he]
  · intro e he
    rw [list_secrets, hauth]
    show Except.ok (list_try t c path sty tok) = _
    rw [list_try, he]
  · intro e he
    rw [get_secret_metadata, hauth]
    show Except.ok (metadata_try t c name tok) = _
    rw [metadata_try, he]
  · intro e he
    rw [count_secrets_by_type, list_secrets, hauth]
    show count_body (list_try t c path none tok) = _
    rw [list_try, he]
    rfl

/-- Witness for the amended C1 theorem at a concrete transport where
authentication succeeds and the secret request raises. -/
theorem gateway_error_containment_witness :
    get_static_secret t_auth_only loadsEx cEx "x" =
      .ok (.obj [("error", .str "boom"), ("detail", .str "boom")]) :=
  (gateway_error_containment t_auth_only loadsEx cEx "x" "/" none (.str "tk")
      rfl).2.2.2.2.2.1 (.transport "boom") rfl

/-- A run of `List.dropWhile` leaves nothing at the front satisfying the
predicate, so a second run is the identity. -/
theorem dropWhile_twice {α : Type} (p : α → Bool) (l : List α) :
    (l.dropWhile p).dropWhile p = l.dropWhile p := by
  induction l with
  | nil => rfl
  | cons a l ih =>
    by_cases h : p a
    · simp [List.dropWhile, h, ih]
    · simp [List.dropWhile, h]

/-- C2 counterexample: `get_static_secret` applied to a name with two
leading slashes posts the request for name `foo`, not `/foo`; the
remaining slash is not retained. -/
theorem c2_counterexample :
    lstrip_slash "//foo" = "foo"
  ∧ lstrip_slash "//foo" ≠ "/foo"
  ∧ get_static_secret t_echo loadsEx cEx "//foo" =
      .ok (.obj [("name", .str "//foo"),
                 ("value", static_payload Val.null "foo"),
                 ("success", .bool true)]) :=
  ⟨rfl, by decide, rfl⟩

/-- C2, amended: the Gateway operations strip every leading `/` of the
secret name (Python `lstrip('/')`), so `/foo/bar` and `foo/bar` address
the same item, and any further leading slashes are removed as well. -/
theorem lstrip_slash_strips_all (s : String) (token : Val) :
    lstrip_slash ("/" ++ s) = lstrip_slash s
  ∧ lstrip_slash (lstrip_slash s) = lstrip_slash s
  ∧ static_payload token (lstrip_slash ("/" ++ s)) = static_payload token (lstrip_slash s) := by
  have h1 : lstrip_slash ("/" ++ s) = lstrip_slash s := by
    rw [lstrip_slash, lstrip_slash, String.data_append]
    show String.mk (List.dropWhile _ ('/' :: s.data)) = _
    simp [List.dropWhile]
  refine ⟨h1, ?_, by rw [h1]⟩
  rw [lstrip_slash, lstrip_slash]
  exact congrArg String.mk (dropWhile_twice _ s.data)

/-- C3 counterexample: a 2xx `/auth` response whose body lacks the token
field does not fail; `_get_token` returns `None` (`Val.null`). -/
theorem c3_counterexample :
    get_token t_empty_auth cEx = .ok Val.null
  ∧ (get_token t_empty_auth cEx).isOk = true := ⟨rfl, rfl⟩

/-- C3, amended: `_get_token` fails exactly when the POST to `/auth`
raises in transport or returns an HTTP error status (>= 400, re-raised by
`raise_for_status`); on an accepted response with an object body it
returns the value of the token field, which is `None` — not a failure —
when the field is absent. -/
theorem get_token_amended (t : Transport) (c : Credentials) :
    (∀ m, t.post (c.gateway_url ++ "/auth") (auth_payload c) = .error m →
      get_token t c = .error (.transport m))
  ∧ (∀ r, t.post (c.gateway_url ++ "/auth") (auth_payload c) = .ok r → 400 ≤ r.status →
      get_token t c = .error (.httpStatus r.status r.text))
  ∧ (∀ r kvs, t.post (c.gateway_url ++ "/auth") (auth_payload c) = .ok r → r.status < 400 →
      r.body = .obj kvs → get_token t c = .ok ((kvs.lookup "token").getD Val.null))
  ∧ (∀ r kvs, t.post (c.gateway_url ++ "/auth") (auth_payload c) = .ok r → r.status < 400 →
      r.body = .obj kvs → kvs.lookup "token" = none → get_token t c = .ok Val.null) := by
  refine ⟨?_, ?_, ?_, ?_⟩
  · intro m hm
    rw [get_token, doPost, hm]
  · intro r hr hs
    rw [get_token, doPost, hr]
    simp [hs]
  · intro r kvs hr hs hb
    rw [get_token, doPost, hr]
    simp [Nat.not_le_of_lt hs, hb]
  · intro r kvs hr hs hb htok
    rw [get_token, doPost, hr]
    simp [Nat.not_le_of_lt hs, hb, htok]

/-- Witness for the amended C3 theorem: a concrete 200 response with an
empty object body yields `.ok Val.null`. -/
theorem get_token_amended_witness :
    get_token t_empty_auth cEx = .ok Val.null :=
  (get_token_amended t_empty_auth cEx).2.2.2 ⟨200, "", .obj []⟩ [] rfl (by decide) rfl rfl

/-- C6: the path normalization of `list_secrets` sends `/prod/*`, `/prod/`
and `/prod` to the identical request path `/prod`, and sends each of the
empty path, `/` and `*` to `/`; the request payload is identical in each
group. -/
theorem list_path_normalization :
    clean_path "/prod/*" = "/prod" ∧ clean_path "/prod/" = "/prod"
  ∧ clean_path "/prod" = "/prod"
  ∧ clean_path "" = "/" ∧ clean_path "/" = "/" ∧ clean_path "*" = "/"
  ∧ (∀ token : Val,
      list_payload token "/prod/*" none = list_payload token "/prod/" none
    ∧ list_payload token "/prod/" none = list_payload token "/prod" none
    ∧ list_payload token "" none = list_payload token "/" none
    ∧ list_payload token "/" none = list_payload token "*" none) :=
  ⟨rfl, rfl, rfl, rfl, rfl, rfl, fun _ => ⟨rfl, rfl, rfl, rfl⟩⟩

/-- C4: when the raw secret value at the cleaned name parses as a JSON
object, the static and rotated fetches classify the item as structured and
expose the parsed field mapping; for every other raw string value (a
parse failure, or a parse producing anything but an object) they classify
it as simple and expose the raw string unchanged. -/
theorem fetch_classification (loads : String → Option Val) (name clean s : String)
    (kvs : List (String × Val)) (h : kvs.lookup clean = some (.str s)) :
    (∀ fields, loads s = some (.obj fields) →
      static_classify loads name clean (.obj kvs) =
        .obj [("name", .str name), ("type", .str "structured"),
              ("fields", .obj fields), ("success", .bool true)]
      ∧ rotated_classify loads name clean (.obj kvs) =
        .obj [("name", .str name), ("type", .str "structured"), ("fields", .obj fields)])
  ∧ (∀ v, loads s = some v → (∀ fields, v ≠ .obj fields) →
      static_classify loads name clean (.obj kvs) =
        .obj [("name", .str name), ("type", .str "simple"),
              ("value", .str s), ("success", .bool true)]
      ∧ rotated_classify loads name clean (.obj kvs) =
        .obj [("name", .str name), ("value", .str s)])
  ∧ (loads s = none →
      static_classify loads name clean (.obj kvs) =
        .obj [("name", .str name), ("type", .str "simple"),
              ("value", .str s), ("success", .bool true)]
      ∧ rotated_classify loads name clean (.obj kvs) =
        .obj [("name", .str name), ("value", .str s)]) := by
  refine ⟨?_, ?_, ?_⟩
  · intro fields hl
    constructor
    · simp [static_classify, h, hl]
    · simp [rotated_classify, h, hl]
  · intro v hl hne
    constructor
    · cases v with
      | obj fields => exact absurd rfl (hne fields)
      | str u => simp [static_classify, h, hl]
      | num n => simp [static_classify, h, hl]
      | bool b => simp [static_classify, h, hl]
      | null => simp [static_classify, h, hl]
      | arr xs => simp [static_classify, h, hl]
    · cases v with
      | obj fields => exact absurd rfl (hne fields)
      | str u => simp [rotated_classify, h, hl]
      | num n => simp [rotated_classify, h, hl]
      | bool b => simp [rotated_classify, h, hl]
      | null => simp [rotated_classify, h, hl]
      | arr xs => simp [rotated_classify, h, hl]
  · intro hl
    constructor
    · simp [static_classify, h, hl]
    · simp [rotated_classify, h, hl]

/-- Witness for C4: a concrete parser mapping the raw value to an object
gives the structured result. -/
theorem fetch_classification_witness :
    static_classify (fun _ => some (.obj [("a", .str "b")])) "n" "n"
        (.obj [("n", .str "x")]) =
      .obj [("name", .str "n"), ("type", .str "structured"),
            ("fields", .obj [("a", .str "b")]), ("success", .bool true)] :=
  ((fetch_classification (fun _ => some (.obj [("a", .str "b")])) "n" "n" "x"
      [("n", .str "x")] rfl).1 [("a", .str "b")] rfl).1

/-- C9: when the decoded `/get-secret-value` response is an object that
lacks the cleaned name as a key, or maps it to a non-string value,
`get_static_secret` returns the raw value with `success: true` and no
`type` (structured/simple) field at all. -/
theorem static_no_classification (loads : String → Option Val) (name clean : String)
    (kvs : List (String × Val)) :
    (kvs.lookup clean = none →
      static_classify loads name clean (.obj kvs) =
        .obj [("name", .str name), ("value", .obj kvs), ("success", .bool true)])
  ∧ (∀ v, kvs.lookup clean = some v → (∀ s, v ≠ .str s) →
      static_classify loads name clean (.obj kvs) =
        .obj [("name", .str name), ("value", v), ("success", .bool true)]) := by
  constructor
  · intro h
    simp [static_classify, h]
  · intro v h hne
    cases v with
    | str u => exact absurd rfl (hne u)
    | obj fields => simp [static_classify, h]
    | num n => simp [static_classify, h]
    | bool b => simp [static_classify, h]
    | null => simp [static_classify, h]
    | arr xs => simp [static_classify, h]

/-- Witness for C9: response object without the name key, and with a
non-string value at the name key. -/
theorem static_no_classification_witness :
    static_classify loadsEx "n" "n" (.obj []) =
      .obj [("name", .str "n"), ("value", .obj []), ("success", .bool true)]
  ∧ static_classify loadsEx "n" "n" (.obj [("n", .num 7)]) =
      .obj [("name", .str "n"), ("value", .num 7), ("success", .bool true)] :=
  ⟨(static_no_classification loadsEx "n" "n" []).1 rfl,
   (static_no_classification loadsEx "n" "n" [("n", .num 7)]).2 (.num 7) rfl
     (fun _ h => Val.noConfusion h)⟩

/-- The four counters of a successful fold sum to the number of items, and
each name list is as long as its counter. -/
theorem count_items_sum (items : List Val) (cs : Counts)
    (h : count_items items = .ok cs) :
    cs.static + cs.rotated + cs.dynamic + cs.other = items.length
  ∧ cs.static_names.length = cs.static
  ∧ cs.rotated_names.length = cs.rotated
  ∧ cs.dynamic_names.length = cs.dynamic
  ∧ cs.other_names.length = cs.other := by
  induction items generalizing cs with
  | nil =>
    rw [count_items] at h
    cases h
    simp [Counts.empty]
  | cons item rest ih =>
    rw [count_items] at h
    cases he : item_entry item with
    | error e => rw [he] at h; cases h
    | ok e =>
      rw [he] at h
      cases hr : count_items rest with
      | error e2 => rw [hr] at h; cases h
      | ok cs' =>
        rw [hr] at h
        have hcs : cs = cs'.add (bucket_of e.1) e.2 := by
          cases h; rfl
        obtain ⟨hsum, hs, hrn, hd, ho⟩ := ih cs' hr
        subst hcs
        cases bucket_of e.1 <;>
          simp [Counts.add, hs, hrn, hd, ho] <;> omega

/-- C5: on a listing of N items the four buckets sum to N (the reported
total), each bucket's name list has the bucket's size, the output of
`count_secrets_by_type` is built from those buckets with `total = N`, and
an item's bucket is purely a function of the case-insensitive substring
matches of its type field against STATIC, ROTATED and DYNAMIC, with an
item matching none of them placed in `other`. -/
theorem count_partition (items : List Val) (cs : Counts)
    (h : count_items items = .ok cs) :
    cs.static + cs.rotated + cs.dynamic + cs.other = items.length
  ∧ cs.static_names.length = cs.static
  ∧ cs.rotated_names.length = cs.rotated
  ∧ cs.dynamic_names.length = cs.dynamic
  ∧ cs.other_names.length = cs.other
  ∧ count_body (.obj [("items", .arr items)]) = .ok (counts_val items.length cs)
  ∧ (∀ ty1 ty2 : String,
      ci_match "STATIC" ty1 = ci_match "STATIC" ty2 →
      ci_match "ROTATED" ty1 = ci_match "ROTATED" ty2 →
      ci_match "DYNAMIC" ty1 = ci_match "DYNAMIC" ty2 →
      bucket_of (py_upper ty1) = bucket_of (py_upper ty2))
  ∧ (∀ ty : String, ci_match "STATIC" ty = false → ci_match "ROTATED" ty = false →
      ci_match "DYNAMIC" ty = false → bucket_of (py_upper ty) = Bucket.other) := by
  obtain ⟨hsum, hs, hr, hd, ho⟩ := count_items_sum items cs h
  refine ⟨hsum, hs, hr, hd, ho, ?_, ?_, ?_⟩
  · show (count_items items).map (counts_val items.length) = .ok (counts_val items.length cs)
    rw [h]
    rfl
  · intro ty1 ty2 h1 h2 h3
    simp only [ci_match] at h1 h2 h3
    simp only [bucket_of, h1, h2, h3]
  · intro ty h1 h2 h3
    simp only [ci_match] at h1 h2 h3
    simp [bucket_of, h1, h2, h3]

def items_witness : List Val :=
  [.obj [("item_type", .str "static-secret"), ("item_name", .str "a")],
   .obj [("item_type", .str "ROTATED_SECRET"), ("item_name", .str "b")],
   .obj [("item_type", .str "weird"), ("item_name", .str "c")]]

def counts_witness : Counts :=
  ⟨1, 1, 0, 1, [.str "a"], [.str "b"], [], [.str "c"]⟩

/-- Witness for C5 at a concrete three-item listing. -/
theorem count_partition_witness :
    counts_witness.static + counts_witness.rotated + counts_witness.dynamic
      + counts_witness.other = items_witness.length
  ∧ count_body (.obj [("items", .arr items_witness)]) =
      .ok (counts_val items_witness.length counts_witness) :=
  ⟨(count_partition items_witness counts_witness rfl).1,
   (count_partition items_witness counts_witness rfl).2.2.2.2.2.1⟩

/-- C8: whenever the nested `list_secrets` call returns a value carrying
an `error` key, `count_secrets_by_type` returns that exact value
unchanged. -/
theorem count_propagates_error (t : Transport) (c : Credentials) (path : String)
    (kvs : List (String × Val))
    (hlist : list_secrets t c path none = .ok (.obj kvs))
    (hkey : kvs.any (fun kv => kv.1 = "error") = true) :
    count_secrets_by_type t c path = .ok (.obj kvs) := by
  rw [count_secrets_by_type, hlist]
  show count_body (.obj kvs) = .ok (.obj kvs)
  simp only [count_body, pyContains, hkey]
  rfl

/-- Witness for C8: a transport failing on `/list-items` makes the nested
listing return an error value, and the count operation returns it as-is. -/
theorem count_propagates_error_witness :
    count_secrets_by_type t_auth_only cEx "/" = .ok (.obj [("error", .str "boom")]) :=
  count_propagates_error t_auth_only cEx "/" [("error", .str "boom")] rfl rfl

/-- One-step unfolding of `chat_loop`. -/
theorem chat_loop_eq (env : Env) (current : Turn) (rest : List Turn) :
    chat_loop env current rest =
      match current.parts with
      | [] => ⟨.text current.text, [], []⟩
      | part :: _ =>
        match part.function_call with
        | none => ⟨.text current.text, [], []⟩
        | some fc =>
          match dispatch_one env fc with
          | (.error e, cs) => ⟨.raised e, cs, []⟩
          | (.ok result, cs) =>
            match rest with
            | [] => ⟨.exhausted, cs, [⟨fc.name, result⟩]⟩
            | next :: rest' =>
              let r := chat_loop env next rest'
              ⟨r.outcome, cs ++ r.calls, ⟨fc.name, result⟩ :: r.sent⟩ := by
  rw [chat_loop]

/-- The fixed six-entry tool registry of the dispatch loop. -/
def tool_registry : List String :=
  ["get_static_secret", "get_rotated_secret", "get_dynamic_secret",
   "list_secrets", "get_secret_metadata", "count_secrets_by_type"]

/-- A single dispatch invokes at most one Gateway operation. -/
theorem dispatch_one_calls_le (env : Env) (fc : FunctionCall) :
    (dispatch_one env fc).2.length ≤ 1 := by
  rw [dispatch_one]
  repeat' split
  all_goals simp

/-- C7: a tool call naming a function outside the six-entry registry makes
the dispatch loop perform no Vault Gateway call in that turn and sends the
synthesized result with message `Unknown function: <name>` back to the
model as the function response. -/
theorem unknown_function_no_call (env : Env) (fc : FunctionCall) (current : Turn)
    (rest : List Turn) (part : MsgPart) (ps : List MsgPart)
    (hname : fc.name ∉ tool_registry)
    (hparts : current.parts = part :: ps)
    (hcall : part.function_call = some fc) :
    dispatch_one env fc = (.ok (unknown_function_val fc.name), [])
  ∧ (chat_loop env current rest).sent.head? = some ⟨fc.name, unknown_function_val fc.name⟩
  ∧ (∀ next rest', rest = next :: rest' →
      (chat_loop env current rest).calls = (chat_loop env next rest').calls)
  ∧ (rest = [] → (chat_loop env current rest).calls = []) := by
  simp only [tool_registry, List.mem_cons, List.not_mem_nil, or_false, not_or] at hname
  obtain ⟨h1, h2, h3, h4, h5, h6⟩ := hname
  have hd : dispatch_one env fc = (.ok (unknown_function_val fc.name), []) := by
    rw [dispatch_one, if_neg h1, if_neg h2, if_neg h3, if_neg h4, if_neg h5, if_neg h6]
  refine ⟨hd, ?_, ?_, ?_⟩
  · cases rest with
    | nil =>
      rw [chat_loop_eq, hparts]
      simp [hcall, hd]
    | cons next rest' =>
      rw [chat_loop_eq, hparts]
      simp [hcall, hd]
  · intro next rest' hrest
    subst hrest
    rw [chat_loop_eq, hparts]
    simp [hcall, hd]
  · intro hrest
    subst hrest
    rw [chat_loop_eq, hparts]
    simp [hcall, hd]

def fc_unknown : FunctionCall := ⟨"delete_all_secrets", []⟩

def env_witness : Env := ⟨t_auth_only, loadsEx, cEx⟩

def turn_unknown : Turn := ⟨[⟨some fc_unknown⟩], ""⟩

/-- Witness for C7 at a concrete unregistered function name. -/
theorem unknown_function_no_call_witness :
    dispatch_one env_witness fc_unknown =
      (.ok (unknown_function_val "delete_all_secrets"), [])
  ∧ (chat_loop env_witness turn_unknown []).calls = [] :=
  ⟨(unknown_function_no_call env_witness fc_unknown turn_unknown [] ⟨some fc_unknown⟩ []
      (by decide) rfl rfl).1,
   (unknown_function_no_call env_witness fc_unknown turn_unknown [] ⟨some fc_unknown⟩ []
      (by decide) rfl rfl).2.2.2 rfl⟩

/-- Across a whole run of the dispatch loop, at most one function response
is sent per model turn consumed. -/
theorem chat_loop_sent_le (env : Env) (current : Turn) (rest : List Turn) :
    (chat_loop env current rest).sent.length ≤ rest.length + 1 := by
  induction rest generalizing current with
  | nil =>
    cases hp : current.parts with
    | nil => rw [chat_loop_eq, hp]; simp
    | cons part ps =>
      cases hc : part.function_call with
      | none => rw [chat_loop_eq, hp]; simp [hc]
      | some fc =>
        rcases hd : dispatch_one env fc with ⟨res, cs⟩
        cases res with
        | error e => rw [chat_loop_eq, hp]; simp [hc, hd]
        | ok v => rw [chat_loop_eq, hp]; simp [hc, hd]
  | cons next rest' ih =>
    cases hp : current.parts with
    | nil => rw [chat_loop_eq, hp]; simp
    | cons part ps =>
      cases hc : part.function_call with
      | none => rw [chat_loop_eq, hp]; simp [hc]
      | some fc =>
        rcases hd : dispatch_one env fc with ⟨res, cs⟩
        cases res with
        | error e => rw [chat_loop_eq, hp]; simp [hc, hd]
        | ok v =>
          have h := ih next
          rw [chat_loop_eq, hp]
          simp only [hc, hd, List.length_cons]
          omega

/-- Across a whole run of the dispatch loop, at most one Gateway call is
made per model turn consumed. -/
theorem chat_loop_calls_le (env : Env) (current : Turn) (rest : List Turn) :
    (chat_loop env current rest).calls.length ≤ rest.length + 1 := by
  induction rest generalizing current with
  | nil =>
    cases hp : current.parts with
    | nil => rw [chat_loop_eq, hp]; simp
    | cons part ps =>
      cases hc : part.function_call with
      | none => rw [chat_loop_eq, hp]; simp [hc]
      | some fc =>
        rcases hd : dispatch_one env fc with ⟨res, cs⟩
        have hcs : cs.length ≤ 1 := by
          have := dispatch_one_calls_le env fc
          rw [hd] at this
          exact this
        cases res with
        | error e => rw [chat_loop_eq, hp]; simp [hc, hd]; omega
        | ok v => rw [chat_loop_eq, hp]; simp [hc, hd]; omega
  | cons next rest' ih =>
    cases hp : current.parts with
    | nil => rw [chat_loop_eq, hp]; simp
    | cons part ps =>
      cases hc : part.function_call with
      | none => rw [chat_loop_eq, hp]; simp [hc]
      | some fc =>
        rcases hd : dispatch_one env fc with ⟨res, cs⟩
        have hcs : cs.length ≤ 1 := by
          have := dispatch_one_calls_le env fc
          rw [hd] at this
          exact this
        cases res with
        | error e => rw [chat_loop_eq, hp]; simp [hc, hd]; omega
        | ok v =>
          have h := ih next
          rw [chat_loop_eq, hp]
          simp only [hc, hd, List.length_cons, List.length_append]
          omega

/-- C10: the dispatch loop inspects only the first part of a model turn:
if that part carries no function call the loop stops and returns the
turn's text, performing no Gateway call and sending nothing, whatever the
later parts contain; and over a whole run at most one tool call is
executed per model turn consumed. -/
theorem first_part_only (env : Env) (current : Turn) (rest : List Turn) :
    (∀ part ps, current.parts = part :: ps → part.function_call = none →
      chat_loop env current rest = ⟨.text current.text, [], []⟩)
  ∧ (chat_loop env current rest).sent.length ≤ rest.length + 1
  ∧ (chat_loop env current rest).calls.length ≤ rest.length + 1 := by
  refine ⟨?_, chat_loop_sent_le env current rest, chat_loop_calls_le env current rest⟩
  intro part ps hp hc
  rw [chat_loop_eq, hp]
  simp [hc]

def turn_text : Turn := ⟨[⟨none⟩, ⟨some fc_unknown⟩], "hello"⟩

/-- Witness for C10: a turn whose first part has no function call, though
a later part carries one, terminates with the turn's text. -/
theorem first_part_only_witness :
    chat_loop env_witness turn_text [] = ⟨.text "hello", [], []⟩
  ∧ (chat_loop env_witness turn_text []).sent.length ≤ 1 :=
  ⟨(first_part_only env_witness turn_text []).1 ⟨none⟩ [⟨some fc_unknown⟩] rfl rfl,
   (first_part_only env_witness turn_text []).2.1⟩
